import Mathlib

set_option autoImplicit false
set_option maxRecDepth 8192

/-!
Verification development for the job-posting extraction/structuring/report
pipeline (Next.js route handlers: extract-to-excel, preview-extraction,
extract-content, generate-description).

JavaScript strings are modelled as Lean `String` (a list of characters);
`substring`, `trim`, and the whitespace-collapsing regex replaces are
modelled character-wise. The markup-parsing collaborator (cheerio) is
modelled by an abstract cleaned document `Doc` giving, for each CSS
selector, the text of the matched region (`none` when no node matches),
exactly the interface the extractor consumes after the noise-node removal
step. The external structuring service and the HTTP transport are
modelled by outcome values (`StructOutcome`, `FetchOutcome`) supplied per
call, covering success, HTTP-error and transport-error behaviours.
-/

namespace Generator

/-- Whitespace class used by the JavaScript regexes `\s` and by `trim`. -/
def isJsWs (c : Char) : Bool :=
  c = ' ' ∨ c = '\t' ∨ c = '\n' ∨ c = '\r' ∨ c = '\x0b' ∨ c = '\x0c'

/-- Model of `String.prototype.trim`: strip leading and trailing whitespace. -/
def jsTrim (s : String) : String :=
  ⟨((s.data.dropWhile isJsWs).reverse.dropWhile isJsWs).reverse⟩

/-- Model of `substring(0, n)`: the first `n` characters. -/
def jsSubstring (s : String) (n : Nat) : String :=
  ⟨s.data.take n⟩

/-- Character-wise model of `replace(/\s+/g, ' ')`: each maximal run of
whitespace becomes a single space.  The flag records whether the previous
character was part of a whitespace run already emitted. -/
def collapseWsAux : List Char → Bool → List Char
  | [], _ => []
  | c :: rest, prevWs =>
    if isJsWs c then
      if prevWs then collapseWsAux rest true
      else ' ' :: collapseWsAux rest true
    else c :: collapseWsAux rest false

/-- Model of `replace(/\s+/g, ' ')`. -/
def collapseWs (s : String) : String := ⟨collapseWsAux s.data false⟩

/-- Character-wise model of `replace(/\n+/g, '\n')`: each maximal run of
newlines becomes a single newline. -/
def collapseNlAux : List Char → Bool → List Char
  | [], _ => []
  | c :: rest, prevNl =>
    if c = '\n' then
      if prevNl then collapseNlAux rest true
      else '\n' :: collapseNlAux rest true
    else c :: collapseNlAux rest false

/-- Model of `replace(/\n+/g, '\n')`. -/
def collapseNl (s : String) : String := ⟨collapseNlAux s.data false⟩

/-- The normalization chain applied to the selected content:
`.replace(/\s+/g, ' ').replace(/\n+/g, '\n').trim()`. -/
def cleanText (s : String) : String := jsTrim (collapseNl (collapseWs s))

/-- Abstract cleaned document: the state of the cheerio document after
`$('script, style, nav, header, footer, aside, .advertisement, .ads,
.sidebar').remove()`.  `sel q` is `some t` when selector `q` matches at
least one node, `t` being the concatenated text `$(q).text()` of the
matches; `none` when no node matches (in which case `$(q).text()` is the
empty string).  `title`, `h1`, `h2s` and `body` give the corresponding
element texts. -/
structure Doc where
  title : String
  h1 : String
  h2s : List String
  sel : String → Option String
  body : String

/-- The ordered candidate content selector list from the source. -/
def contentSelectors : List String :=
  ["main", ".content", ".main-content", ".job-description",
   ".job-detail", ".post-content", "article", ".entry-content"]

/-- Text of one candidate: `$(selector).text().trim()` (empty when the
selector matches nothing). -/
def candText (doc : Doc) (selector : String) : String :=
  jsTrim ((doc.sel selector).getD "")

/-- One iteration of the selection loop:
`if (content && content.length > mainContent.length) mainContent = content`. -/
def pickStep (doc : Doc) (acc : String) (selector : String) : String :=
  if candText doc selector ≠ "" ∧ acc.length < (candText doc selector).length
  then candText doc selector else acc

/-- The selection loop over all candidate selectors, starting from `''`. -/
def pickMain (doc : Doc) : String :=
  contentSelectors.foldl (pickStep doc) ""

/-- Selected main content: the loop result, or the body-text fallback
`if (!mainContent) mainContent = $('body').text().trim()`. -/
def mainContent (doc : Doc) : String :=
  if pickMain doc = "" then jsTrim doc.body else pickMain doc

/-- `extractContentFromUrl` (extract-to-excel route), after the fetch and
noise removal: candidate selection, body fallback, then normalization. -/
def extractedContent (doc : Doc) : String :=
  cleanText (mainContent doc)

/-- RawExtraction, the preview route's `extractContentFromUrl` result. -/
structure RawExtraction where
  title : String
  h1 : String
  h2Elements : List String
  content : String
  contentLength : Nat
  deriving DecidableEq

/-- The preview route's `extractContentFromUrl`: titles and headings are
trimmed, the first five `h2` texts are kept (`slice(0, 5)`), and the
content is selected and normalized as in the other routes. -/
def extractContentFromUrlPreview (doc : Doc) : RawExtraction :=
  { title := jsTrim doc.title
  , h1 := jsTrim doc.h1
  , h2Elements := (doc.h2s.map jsTrim).take 5
  , content := extractedContent doc
  , contentLength := (extractedContent doc).length }

/-- Suffix of `cs` starting at the first occurrence of `c`, when any. -/
def afterFirst (c : Char) : List Char → Option (List Char)
  | [] => none
  | x :: xs => if x = c then some (x :: xs) else afterFirst c xs

/-- Model of `aiResponse.match(/\x7b[\s\S]*\x7d/)`: the JavaScript regex is
greedy, so the (single) match runs from the first `\x7b` of the string to
the last `\x7d`, provided such a pair exists; otherwise `match` is `null`. -/
def jsonRegion (s : String) : Option String :=
  (afterFirst '{' s.data).bind (fun suffix =>
    (afterFirst '}' suffix.reverse).map (fun revRegion => ⟨revRegion.reverse⟩))

/-- Modelled from the spec: depth-counting scan for the matching close
brace, used to express the spec's "first balanced `\x7b...\x7d` region"
(the source uses the greedy regex instead; this definition exists only to
compare the two). -/
def scanBalanced : List Char → Nat → List Char → Option (List Char)
  | [], _, _ => none
  | c :: rest, depth, acc =>
    if c = '{' then scanBalanced rest (depth + 1) (c :: acc)
    else if c = '}' then
      if depth ≤ 1 then some (c :: acc).reverse
      else scanBalanced rest (depth - 1) (c :: acc)
    else scanBalanced rest depth (c :: acc)

/-- Modelled from the spec: search for the first balanced region. -/
def firstBalancedAux : List Char → Option (List Char)
  | [] => none
  | c :: rest =>
    if c = '{' then
      match scanBalanced (c :: rest) 0 [] with
      | some r => some r
      | none => firstBalancedAux rest
    else firstBalancedAux rest

/-- Modelled from the spec: the first balanced `\x7b...\x7d` region of the
reply, the extraction rule the spec ascribes to the Structuring Client. -/
def firstBalancedRegion (s : String) : Option String :=
  (firstBalancedAux s.data).map (fun l => ⟨l⟩)

/-- JSON values, the result of `JSON.parse`.  Numbers keep their lexical
form (no claim inspects numeric values beyond integer fields). -/
inductive Json where
  | null
  | bool (b : Bool)
  | num (raw : String)
  | str (s : String)
  | arr (elems : List Json)
  | obj (fields : List (String × Json))

def isJsonDigit (c : Char) : Bool := '0' ≤ c ∧ c ≤ '9'

/-- Lex a JSON string body (after the opening quote); returns the decoded
characters and the rest of the input after the closing quote.  The
`\uXXXX` escape is not modelled (no claim exercises it); inputs using it
fail to parse. -/
def lexStringAux : List Char → Option (List Char × List Char)
  | [] => none
  | '"' :: rest => some ([], rest)
  | '\\' :: e :: rest =>
    let decoded : Option Char :=
      if e = '"' then some '"'
      else if e = '\\' then some '\\'
      else if e = '/' then some '/'
      else if e = 'b' then some '\x08'
      else if e = 'f' then some '\x0c'
      else if e = 'n' then some '\n'
      else if e = 'r' then some '\r'
      else if e = 't' then some '\t'
      else none
    match decoded with
    | none => none
    | some d =>
      match lexStringAux rest with
      | none => none
      | some (acc, rem) => some (d :: acc, rem)
  | '\\' :: [] => none
  | c :: rest =>
    match lexStringAux rest with
    | none => none
    | some (acc, rem) => some (c :: acc, rem)

/-- Lex the fraction part of a JSON number, when present. -/
def lexFrac : List Char → Option (List Char × List Char)
  | '.' :: r =>
    let p := r.span isJsonDigit
    if p.1 = [] then none else some ('.' :: p.1, p.2)
  | cs => some ([], cs)

/-- Lex the exponent part of a JSON number, when present. -/
def lexExp : List Char → Option (List Char × List Char)
  | [] => some ([], [])
  | c :: r =>
    if c = 'e' ∨ c = 'E' then
      let sgn : List Char × List Char :=
        match r with
        | s :: r2 => if s = '+' ∨ s = '-' then ([s], r2) else ([], r)
        | [] => ([], r)
      let p := sgn.2.span isJsonDigit
      if p.1 = [] then none else some (c :: sgn.1 ++ p.1, p.2)
    else some ([], c :: r)

/-- Lex a JSON number token. -/
def lexNumber (cs : List Char) : Option (List Char × List Char) :=
  let neg : List Char × List Char :=
    match cs with
    | '-' :: r => (['-'], r)
    | _ => ([], cs)
  let ip := neg.2.span isJsonDigit
  if ip.1 = [] then none
  else if 1 < ip.1.length ∧ ip.1.head? = some '0' then none
  else
    match lexFrac ip.2 with
    | none => none
    | some (fp, cs3) =>
      match lexExp cs3 with
      | none => none
      | some (ep, cs4) => some (neg.1 ++ ip.1 ++ fp ++ ep, cs4)

def jsonWsChar (c : Char) : Bool := c = ' ' ∨ c = '\t' ∨ c = '\n' ∨ c = '\r'

mutual

/-- Recursive-descent JSON value parser (model of `JSON.parse`); `fuel`
dominates the recursion depth. -/
def parseVal : Nat → List Char → Option (Json × List Char)
  | 0, _ => none
  | fuel + 1, cs0 =>
    match cs0.dropWhile jsonWsChar with
    | [] => none
    | '"' :: rest =>
      match lexStringAux rest with
      | none => none
      | some (chars, rem) => some (.str ⟨chars⟩, rem)
    | '{' :: rest =>
      match rest.dropWhile jsonWsChar with
      | '}' :: rem => some (.obj [], rem)
      | rest2 => (parseMembers fuel rest2 []).map (fun p => (Json.obj p.1, p.2))
    | '[' :: rest =>
      match rest.dropWhile jsonWsChar with
      | ']' :: rem => some (.arr [], rem)
      | rest2 => (parseElems fuel rest2 []).map (fun p => (Json.arr p.1, p.2))
    | 't' :: rest =>
      if rest.take 3 = ['r', 'u', 'e'] then some (.bool true, rest.drop 3) else none
    | 'f' :: rest =>
      if rest.take 4 = ['a', 'l', 's', 'e'] then some (.bool false, rest.drop 4) else none
    | 'n' :: rest =>
      if rest.take 3 = ['u', 'l', 'l'] then some (.null, rest.drop 3) else none
    | cs =>
      match lexNumber cs with
      | none => none
      | some (tok, rem) => some (.num ⟨tok⟩, rem)

/-- Parse the members of an object, positioned at a key. -/
def parseMembers : Nat → List Char → List (String × Json) →
    Option (List (String × Json) × List Char)
  | 0, _, _ => none
  | fuel + 1, cs, acc =>
    match cs.dropWhile jsonWsChar with
    | '"' :: rest =>
      match lexStringAux rest with
      | none => none
      | some (key, rem) =>
        match rem.dropWhile jsonWsChar with
        | ':' :: rem2 =>
          match parseVal fuel rem2 with
          | none => none
          | some (v, rem3) =>
            match rem3.dropWhile jsonWsChar with
            | ',' :: rem4 => parseMembers fuel rem4 (acc ++ [(⟨key⟩, v)])
            | '}' :: rem4 => some (acc ++ [(⟨key⟩, v)], rem4)
            | _ => none
        | _ => none
    | _ => none

/-- Parse the elements of an array, positioned at a value. -/
def parseElems : Nat → List Char → List Json → Option (List Json × List Char)
  | 0, _, _ => none
  | fuel + 1, cs, acc =>
    match parseVal fuel cs with
    | none => none
    | some (v, rem) =>
      match rem.dropWhile jsonWsChar with
      | ',' :: rem2 => parseElems fuel rem2 (acc ++ [v])
      | ']' :: rem2 => some (acc ++ [v], rem2)
      | _ => none

end

/-- Model of `JSON.parse`: one JSON text, with nothing but whitespace
allowed after it (trailing garbage is a syntax error). -/
def Json.parse (s : String) : Option Json :=
  match parseVal (2 * s.data.length + 8) s.data with
  | none => none
  | some (j, rem) => if rem.dropWhile jsonWsChar = [] then some j else none

/-- Last binding of key `k` (later duplicate keys win, as in
`JSON.parse`). -/
def lookupLast (k : String) : List (String × Json) → Option Json
  | [] => none
  | (k2, v) :: rest =>
    match lookupLast k rest with
    | some r => some r
    | none => if k2 = k then some v else none

/-- Field access on a parsed object. -/
def Json.getField (j : Json) (k : String) : Option Json :=
  match j with
  | .obj fields => lookupLast k fields
  | _ => none

/-- String-valued field of a parsed object. -/
def Json.getStr (j : Json) (k : String) : Option String :=
  match j.getField k with
  | some (.str s) => some s
  | _ => none

/-- Integer value of a lexical number token, when it is a plain integer. -/
def rawToInt (raw : String) : Option Int :=
  let digitsToNat (l : List Char) : Nat :=
    l.foldl (fun n c => 10 * n + (c.toNat - '0'.toNat)) 0
  match raw.data with
  | '-' :: ds => if ds ≠ [] ∧ ds.all isJsonDigit then some (-(digitsToNat ds : Int)) else none
  | ds => if ds ≠ [] ∧ ds.all isJsonDigit then some (digitsToNat ds : Int) else none

/-- Integer-number-valued field of a parsed object. -/
def Json.getInt (j : Json) (k : String) : Option Int :=
  match j.getField k with
  | some (.num raw) => rawToInt raw
  | _ => none

/-- String-array-valued field of a parsed object (string elements kept). -/
def Json.getStrArr (j : Json) (k : String) : List String :=
  match j.getField k with
  | some (.arr elems) =>
    elems.filterMap (fun e => match e with | .str s => some s | _ => none)
  | _ => []

/-- The `salary` sub-object of `JobData`. -/
structure Salary where
  min : Option Int
  max : Option Int
  type : Option String
  details : Option String
  deriving DecidableEq

/-- The `requirements` sub-object of `JobData`. -/
structure Requirements where
  experience : Option String
  skills : List String
  education : Option String
  deriving DecidableEq

/-- The `JobData` record (the spec's StructuredJob). `url` is the spec's
`sourceUrl` and `extractedAt` the spec's `extractedAtUtc`. -/
structure JobData where
  jobTitle : Option String
  companyName : Option String
  location : Option String
  salary : Salary
  workingHours : Option String
  holidays : Option String
  benefits : List String
  requirements : Requirements
  jobDescription : Option String
  applicationMethod : Option String
  employmentType : Option String
  url : String
  extractedAt : String
  deriving DecidableEq

/-- Model of `\x7b...structuredData, url, extractedAt\x7d`: the parsed
object's fields populate the record schema-wise (a field absent from the
object, or of the wrong shape, stays absent/empty), and `url` and
`extractedAt` are adjoined. -/
def jobFromJson (j : Json) (url now : String) : JobData :=
  let sal := j.getField "salary"
  let req := j.getField "requirements"
  { jobTitle := j.getStr "jobTitle"
  , companyName := j.getStr "companyName"
  , location := j.getStr "location"
  , salary :=
      { min := (sal.map (fun o => o.getInt "min")).getD none
      , max := (sal.map (fun o => o.getInt "max")).getD none
      , type := (sal.map (fun o => o.getStr "type")).getD none
      , details := (sal.map (fun o => o.getStr "details")).getD none }
  , workingHours := j.getStr "workingHours"
  , holidays := j.getStr "holidays"
  , benefits := j.getStrArr "benefits"
  , requirements :=
      { experience := (req.map (fun o => o.getStr "experience")).getD none
      , skills := (req.map (fun o => o.getStrArr "skills")).getD []
      , education := (req.map (fun o => o.getStr "education")).getD none }
  , jobDescription := j.getStr "jobDescription"
  , applicationMethod := j.getStr "applicationMethod"
  , employmentType := j.getStr "employmentType"
  , url := url
  , extractedAt := now }

/-- The ways one structuring call can fail: the reply held no JSON-like
region, the extracted region did not parse, or the HTTP call itself
failed (`status = none` models a transport error with no response). -/
inductive StructFailure where
  | noJsonFound
  | invalidJson (region : String)
  | transport (status : Option Nat) (msg : String)
  deriving DecidableEq

/-- Stand-in for the JavaScript engine's `SyntaxError` message thrown by
`JSON.parse`; its exact text is engine-specific and no claim depends on
it. -/
def jsonSyntaxErrorMsg (region : String) : String :=
  "Unexpected token in JSON: " ++ region

/-- The error-message classification in `structureJobData`'s catch block
(extract-to-excel route): the thrown error's own message for the two
parse failures, and the status-based OpenRouter messages for transport
failures. -/
def structuringErrorMessage : StructFailure → String
  | .noJsonFound => "No valid JSON found in AI response"
  | .invalidJson r => jsonSyntaxErrorMsg r
  | .transport (some 402) _ =>
      "OpenRouter API: 残高不足です。アカウントにクレジットを追加してください。"
  | .transport (some 401) _ =>
      "OpenRouter API: APIキーが無効です。正しいAPIキーを入力してください。"
  | .transport (some 429) _ =>
      "OpenRouter API: レート制限に達しました。しばらく待ってから再試行してください。"
  | .transport (some status) msg =>
      "OpenRouter API エラー (" ++ toString status ++ "): " ++ msg
  | .transport none msg => "ネットワークエラー: " ++ msg

/-- The fixed diagnostic marker opening every degraded record's
`jobDescription`. -/
def aiErrorMarker : String := "【AI構造化エラー】"

/-- Header introducing the raw-content excerpt in a degraded record. -/
def rawDataHeader : String := "\n\n【抽出された生データ】\n"

/-- The degraded record built in `structureJobData`'s catch block:
`jobDescription` carries the marker, the classified error message and the
first 1,000 characters of the raw content (with `...` appended when the
content is longer); every other structured field is null/empty. -/
def degradedJob (errorMessage content url now : String) : JobData :=
  { jobTitle := none
  , companyName := none
  , location := none
  , salary := { min := none, max := none, type := none, details := none }
  , workingHours := none
  , holidays := none
  , benefits := []
  , requirements := { experience := none, skills := [], education := none }
  , jobDescription := some
      (aiErrorMarker ++ errorMessage ++ rawDataHeader ++ jsSubstring content 1000
        ++ (if 1000 < content.length then "..." else ""))
  , applicationMethod := none
  , employmentType := none
  , url := url
  , extractedAt := now }

/-- Outcome of one call to the structuring service: a reply text, or an
HTTP/transport failure. -/
inductive StructOutcome where
  | reply (text : String)
  | httpError (status : Option Nat) (msg : String)

/-- Core of both `structureJobData` copies: extract the greedy regex
region from the reply and parse it; classify the failure otherwise. -/
def structureReplyCore (o : StructOutcome) (url now : String) :
    Except StructFailure JobData :=
  match o with
  | .reply text =>
    match jsonRegion text with
    | none => .error .noJsonFound
    | some region =>
      match Json.parse region with
      | none => .error (.invalidJson region)
      | some j => .ok (jobFromJson j url now)
  | .httpError status msg => .error (.transport status msg)

/-- `structureJobData` of the preview route: errors propagate to the
caller (the function throws). -/
def structureJobDataPreview (o : StructOutcome) (url now : String) :
    Except StructFailure JobData :=
  structureReplyCore o url now

/-- `structureJobData` of the extract-to-excel route: identical up to the
catch block, which converts any failure into the degraded record. -/
def structureJobDataExcel (o : StructOutcome) (content url now : String) : JobData :=
  match structureReplyCore o url now with
  | .ok job => job
  | .error f => degradedJob (structuringErrorMessage f) content url now

/-- A failure of `extractContentFromUrl` (the only throwing step inside
the batch loop's try block): an axios error carrying an optional HTTP
status, or another thrown `Error`. -/
inductive FetchErr where
  | axios (status : Option Nat) (msg : String)
  | other (msg : String)

/-- Behaviour of the collaborators for one URL: what the fetch+parse
yields (a cleaned document or a thrown error) and what the structuring
service does when called. -/
structure ItemBehaviour where
  fetch : Except FetchErr Doc
  structuring : StructOutcome

/-- The error-message classification in the batch loop's per-item catch
block (English messages of the extract-to-excel route). -/
def fetchErrorMessage : FetchErr → String
  | .axios (some 402) _ =>
      "OpenRouter API: Payment required. Please check your account balance."
  | .axios (some 401) _ => "OpenRouter API: Invalid API key."
  | .axios (some 429) _ =>
      "OpenRouter API: Rate limit exceeded. Please try again later."
  | .axios (some status) msg =>
      "OpenRouter API Error (" ++ toString status ++ "): " ++ msg
  | .axios none msg => "Network error: " ++ msg
  | .other msg => msg

/-- The degraded record pushed by the per-item catch block. -/
def fetchErrorJob (e : FetchErr) (url now : String) : JobData :=
  { jobTitle := none
  , companyName := none
  , location := none
  , salary := { min := none, max := none, type := none, details := none }
  , workingHours := none
  , holidays := none
  , benefits := []
  , requirements := { experience := none, skills := [], education := none }
  , jobDescription := some ("Error processing URL: " ++ fetchErrorMessage e)
  , applicationMethod := none
  , employmentType := none
  , url := url
  , extractedAt := now }

/-- One iteration of the batch loop: fetch and extract, then structure
(the structuring function never throws in this route); a thrown fetch
error is caught and converted into the catch block's degraded record. -/
def processItem (url : String) (b : ItemBehaviour) (now : String) : JobData :=
  match b.fetch with
  | .ok doc => structureJobDataExcel b.structuring (extractedContent doc) url now
  | .error e => fetchErrorJob e url now

/-- The records accumulated by the batch loop (`jobsData`), one push per
input URL whether the try block completes or the catch block runs. -/
def runBatchJobs (now : String) : List (String × ItemBehaviour) → List JobData
  | [] => []
  | (url, b) :: rest => processItem url b now :: runBatchJobs now rest

/-- Observable scheduling events of the batch loop: the start of one
URL's processing, and the `setTimeout` pause (in milliseconds). -/
inductive Ev where
  | process (url : String)
  | delay (ms : Nat)
  deriving DecidableEq

/-- Event trace of the batch loop.  The `await new Promise(... 1000)`
sits at the end of the try block, so it runs only when the fetch
succeeded; when the catch block runs (fetch error), the loop moves to the
next URL with no pause. -/
def runBatchTrace : List (String × ItemBehaviour) → List Ev
  | [] => []
  | (url, b) :: rest =>
    Ev.process url ::
      (match b.fetch with
       | .ok _ => [Ev.delay 1000]
       | .error _ => []) ++ runBatchTrace rest

/-- Whether some `process` event immediately follows another, i.e. two
consecutive URLs were processed with no delay between them. -/
def adjacentProcessPair : List Ev → Bool
  | Ev.process _ :: Ev.process _ :: _ => true
  | _ :: rest => adjacentProcessPair rest
  | [] => false

/-- One row of the 求人一覧 (listing) sheet. -/
structure SummaryRow where
  jobTitle : String
  companyName : String
  location : String
  salaryMin : String
  salaryMax : String
  salaryType : String
  employmentType : String
  url : String
  extractedAt : String
  deriving DecidableEq

/-- Model of the rendering `new Date(job.extractedAt).toLocaleString('ja-JP')`
(locale formatting is a runtime collaborator; no claim inspects it, so it
is modelled as the identity on the stored timestamp). -/
def toLocaleStringJaJP (iso : String) : String := iso

/-- Cell rendering `x || ''` for an optional number (`0` is falsy). -/
def numCell (x : Option Int) : String :=
  match x with
  | some n => if n = 0 then "" else toString n
  | none => ""

/-- Cell rendering `x || ''` for an optional string. -/
def strCell (x : Option String) : String := x.getD ""

/-- The listing-sheet row for one record. -/
def summaryRow (job : JobData) : SummaryRow :=
  { jobTitle := strCell job.jobTitle
  , companyName := strCell job.companyName
  , location := strCell job.location
  , salaryMin := numCell job.salary.min
  , salaryMax := numCell job.salary.max
  , salaryType := strCell job.salary.type
  , employmentType := strCell job.employmentType
  , url := job.url
  , extractedAt := toLocaleStringJaJP job.extractedAt }

/-- One row of the 詳細情報 (detail) sheet. -/
structure DetailRow where
  no : Nat
  jobTitle : String
  companyName : String
  location : String
  salaryDetails : String
  workingHours : String
  holidays : String
  benefits : String
  experience : String
  skills : String
  education : String
  jobDescription : String
  applicationMethod : String
  url : String
  deriving DecidableEq

/-- The detail-sheet row for one record (`No.` is `index + 1`). -/
def detailRow (idx : Nat) (job : JobData) : DetailRow :=
  { no := idx + 1
  , jobTitle := strCell job.jobTitle
  , companyName := strCell job.companyName
  , location := strCell job.location
  , salaryDetails := strCell job.salary.details
  , workingHours := strCell job.workingHours
  , holidays := strCell job.holidays
  , benefits := String.intercalate ", " job.benefits
  , experience := strCell job.requirements.experience
  , skills := String.intercalate ", " job.requirements.skills
  , education := strCell job.requirements.education
  , jobDescription := strCell job.jobDescription
  , applicationMethod := strCell job.applicationMethod
  , url := job.url }

/-- The detail sheet: `jobsData.map((job, index) => ...)`. -/
def detailRows (jobsData : List JobData) : List DetailRow :=
  (jobsData.enum).map (fun p => detailRow p.1 p.2)

/-- Increment the count stored under key `k`, inserting it at the end on
first sight — the update `rec[key] = (rec[key] || 0) + 1` on a JavaScript
object, whose keys enumerate in insertion order. -/
def bump (k : String) : List (String × Nat) → List (String × Nat)
  | [] => [(k, 1)]
  | (k2, n) :: rest => if k2 = k then (k2, n + 1) :: rest else (k2, n) :: bump k rest

/-- JavaScript truthiness of an optional string field (`null`, `undefined`
and `''` are falsy). -/
def truthyStr : Option String → Bool
  | some v => v ≠ ""
  | none => false

/-- One frequency aggregation of the statistics sheet: each record whose
field passes the `if (job.field)` truthiness test bumps that field
value's count. -/
def groupCount (field : JobData → Option String) (jobsData : List JobData) :
    List (String × Nat) :=
  jobsData.foldl
    (fun acc job =>
      match field job with
      | some v => if v ≠ "" then bump v acc else acc
      | none => acc)
    []

/-- The three sheets built by `createExcelFile`; the statistics sheet is
kept in the shape of the source's `stats` object (total plus the three
insertion-ordered aggregation maps). -/
structure Workbook where
  summary : List SummaryRow
  detail : List DetailRow
  statsTotal : Nat
  statsJobTitle : List (String × Nat)
  statsLocation : List (String × Nat)
  statsEmploymentType : List (String × Nat)
  deriving DecidableEq

/-- Model of `createExcelFile` (the spreadsheet serialization itself is a
collaborator; the workbook's row data is what is modelled). -/
def createExcelFile (jobsData : List JobData) : Workbook :=
  { summary := jobsData.map summaryRow
  , detail := detailRows jobsData
  , statsTotal := jobsData.length
  , statsJobTitle := groupCount (fun j => j.jobTitle) jobsData
  , statsLocation := groupCount (fun j => j.location) jobsData
  , statsEmploymentType := groupCount (fun j => j.employmentType) jobsData }

/-- Response of the extract-to-excel endpoint: the spreadsheet success
response, or a JSON error response. -/
inductive BatchResponse where
  | excel (wb : Workbook) (status : Nat)
  | jsonError (error : String) (status : Nat)

/-- Pair each URL with the behaviour the collaborators will exhibit for
it (position-indexed, so a repeated URL may behave differently). -/
def pairUp : List String → (Nat → ItemBehaviour) → List (String × ItemBehaviour)
  | [], _ => []
  | u :: rest, beh => (u, beh 0) :: pairUp rest (fun i => beh (i + 1))

/-- Whether a successfully parsed reply object supplies every field that
`createExcelFile` dereferences without a guard.  The source spreads the
parsed object verbatim (`\x7b...structuredData, url, extractedAt\x7d`), so
`job.salary.min` throws a TypeError when `salary` is absent or null,
`job.benefits.join(', ')` throws unless `benefits` is an array, and
`job.requirements.experience` / `job.requirements.skills.join(', ')`
throw unless `requirements` is an object whose `skills` is an array
(property access on a non-object merely yields `undefined`, which the
`|| ''` renderings tolerate, so any non-null `salary` is safe). -/
def excelSafe (j : Json) : Bool :=
  (match j.getField "salary" with
   | none => false
   | some .null => false
   | some _ => true) &&
  (match j.getField "benefits" with
   | some (.arr _) => true
   | _ => false) &&
  (match j.getField "requirements" with
   | some (.obj fields) =>
     (match lookupLast "skills" fields with
      | some (.arr _) => true
      | _ => false)
   | _ => false)

/-- The parsed reply object of one batch item, when the item took the
success path (fetch succeeded, greedy region found, region parsed);
`none` when the item produced a degraded record instead. -/
def itemParsedJson (b : ItemBehaviour) : Option Json :=
  match b.fetch with
  | .error _ => none
  | .ok _ =>
    match b.structuring with
    | .httpError _ _ => none
    | .reply text =>
      match jsonRegion text with
      | none => none
      | some region => Json.parse region

/-- Whether one batch item yields a record `createExcelFile` can render:
both degraded records (fetch error, structuring fallback) carry the full
schema literally and are always safe; a successfully structured record is
safe exactly when the parsed object passes `excelSafe`. -/
def itemExcelSafe (b : ItemBehaviour) : Bool :=
  match itemParsedJson b with
  | none => true
  | some j => excelSafe j

/-- Stand-in for the JavaScript engine's TypeError message raised when
`createExcelFile` dereferences a missing field of a spread record; its
exact text is engine-specific and no claim depends on it. -/
def cellTypeErrorMsg : String := "Cannot read properties of undefined"

/-- The body of the 500 response produced when `createExcelFile` throws:
the outer catch sees a non-axios `Error` and renders
`Processing error: $\x7berror.message\x7d` with status 500. -/
def excelTypeErrorMessage : String := "Processing error: " ++ cellTypeErrorMsg

/-- The extract-to-excel `POST` handler: request validation (`urls` must
be a present non-empty array — a non-array is modelled as an absent
field — and `apiKey` must be truthy), then the batch loop, then
`createExcelFile`.  The spreadsheet response with status 200 is returned
when every record is renderable; when some successfully structured record
lacks a field `createExcelFile` dereferences, the TypeError it throws
escapes to the outer catch, modelled here as the 500 JSON error
response. -/
def extractToExcelPOST (urls : Option (List String)) (apiKey : Option String)
    (beh : Nat → ItemBehaviour) (now : String) : BatchResponse :=
  match urls with
  | none => .jsonError "URLs array is required" 400
  | some us =>
    if us.length = 0 then .jsonError "URLs array is required" 400
    else
      match apiKey with
      | none => .jsonError "OpenRouter API key is required" 400
      | some k =>
        if k = "" then .jsonError "OpenRouter API key is required" 400
        else if (pairUp us beh).all (fun p => itemExcelSafe p.2) then
          .excel (createExcelFile (runBatchJobs now (pairUp us beh))) 200
        else .jsonError excelTypeErrorMessage 500

/-- Outcome of the probe call issued by `validateApiKey`: a resolved HTTP
response with its status, an axios rejection with an optional status, or
a non-axios throw. -/
inductive ProbeOutcome where
  | ok (status : Nat)
  | axiosErr (status : Option Nat) (msg : String)
  | otherErr
  deriving DecidableEq

/-- The payment-required reason string of the Credential Prober. -/
def probePaymentRequiredMsg : String :=
  "OpenRouter API: 残高不足です。アカウントにクレジットを追加してください。"

/-- Model of `validateApiKey`: one minimal probe call, classified into a
validity flag plus a user-facing reason for every failure shape
(`undefined` is how a status-less axios rejection prints in the generic
message). -/
def validateApiKey (o : ProbeOutcome) : Bool × Option String :=
  match o with
  | .ok status => (status = 200, none)
  | .axiosErr (some 402) _ => (false, some probePaymentRequiredMsg)
  | .axiosErr (some 401) _ =>
      (false, some "OpenRouter API: APIキーが無効です。正しいAPIキーを入力してください。")
  | .axiosErr (some 429) _ =>
      (false, some "OpenRouter API: レート制限に達しました。しばらく待ってから再試行してください。")
  | .axiosErr (some status) msg =>
      (false, some ("OpenRouter API エラー (" ++ toString status ++ "): " ++ msg))
  | .axiosErr none msg =>
      (false, some ("OpenRouter API エラー (undefined): " ++ msg))
  | .otherErr => (false, some "APIキーの検証に失敗しました。")

/-- The error message set by the preview handler's inner catch block when
the structuring attempt throws (English messages of the preview route;
the two parse failures are plain `Error`s, not axios errors). -/
def previewStructuringErrorMsg : StructFailure → String
  | .noJsonFound => "Structuring error: No valid JSON found in AI response"
  | .invalidJson r => "Structuring error: " ++ jsonSyntaxErrorMsg r
  | .transport (some 402) _ =>
      "OpenRouter API: Payment required. Please check your account balance."
  | .transport (some 401) _ => "OpenRouter API: Invalid API key."
  | .transport (some 429) _ =>
      "OpenRouter API: Rate limit exceeded. Please try again later."
  | .transport (some status) msg =>
      "OpenRouter API Error (" ++ toString status ++ "): " ++ msg
  | .transport none msg => "OpenRouter API Error (undefined): " ++ msg

/-- Result of the preview endpoint: the success JSON body (with its
optional `structuredData`, `apiKeyValid` and `error` members), or one of
the two error responses. -/
inductive PreviewResult where
  | ok (rawData : RawExtraction) (url : String) (structuredData : Option JobData)
      (apiKeyValid : Option Bool) (error : Option String)
  | fetchFail (error : String) (status : Nat)
  | badRequest (error : String) (status : Nat)
  deriving DecidableEq

/-- Outbound calls the preview handler makes after extraction: the
credential probe and the full structuring call. -/
inductive PEv where
  | probe
  | structuring
  deriving DecidableEq

/-- The preview-extraction `POST` handler, paired with the trace of probe
and structuring calls it makes.  The probe runs only when a truthy
`apiKey` is supplied; the structuring call runs only on a valid probe,
and its failure is caught into the response's `error` member. -/
def previewPOST (url : Option String) (apiKey : Option String)
    (fetch : Except FetchErr Doc) (probe : ProbeOutcome)
    (structuring : StructOutcome) (now : String) : PreviewResult × List PEv :=
  match url with
  | none => (.badRequest "URL is required" 400, [])
  | some u =>
    if u = "" then (.badRequest "URL is required" 400, [])
    else
      match fetch with
      | .error (.axios _ msg) => (.fetchFail ("Failed to fetch URL: " ++ msg) 500, [])
      | .error (.other _) => (.fetchFail "Failed to process URL" 500, [])
      | .ok doc =>
        let rawData := extractContentFromUrlPreview doc
        match apiKey with
        | none => (.ok rawData u none none none, [])
        | some k =>
          if k = "" then (.ok rawData u none none none, [])
          else
            let v := validateApiKey probe
            if v.1 then
              match structureJobDataPreview structuring u now with
              | .ok job => (.ok rawData u (some job) (some true) none, [.probe, .structuring])
              | .error f =>
                  (.ok rawData u none (some true) (some (previewStructuringErrorMsg f)),
                    [.probe, .structuring])
            else
              (.ok rawData u none (some false)
                 (some (v.2.getD "Invalid API key or insufficient credits")), [.probe])

/-- Response body of the standalone extract-content endpoint. -/
structure ExtractedData where
  title : String
  h1 : String
  h2Elements : List String
  content : String
  deriving DecidableEq

/-- The length cap of the extract-content route:
`if (mainContent.length > 3000) mainContent = mainContent.substring(0, 3000) + '...'`. -/
def capContent (s : String) : String :=
  if 3000 < s.length then jsSubstring s 3000 ++ "..." else s

/-- The extract-content `POST` handler after a successful fetch: same
extraction pipeline, then the 3,000-character cap with `...` appended
when the normalized content is longer, and the first five `h2` texts. -/
def extractContentPOST (doc : Doc) : ExtractedData :=
  { title := jsTrim doc.title
  , h1 := jsTrim doc.h1
  , h2Elements := (doc.h2s.map jsTrim).take 5
  , content := capContent (extractedContent doc) }

/-- Per-item block of the batch loop's event trace. -/
def itemTraceBlock (p : String × ItemBehaviour) : List Ev :=
  Ev.process p.1 ::
    (match p.2.fetch with
     | .ok _ => [Ev.delay 1000]
     | .error _ => [])

/-- First-match count read off an aggregation list. -/
def lookupCount (k : String) : List (String × Nat) → Nat
  | [] => 0
  | (k2, n) :: rest => if k2 = k then n else lookupCount k rest

/-- The accumulator step of `groupCount`. -/
def groupStep (field : JobData → Option String)
    (acc : List (String × Nat)) (job : JobData) : List (String × Nat) :=
  match field job with
  | some v => if v ≠ "" then bump v acc else acc
  | none => acc

/-- Projection: the `jobTitle` of a successful structuring result. -/
def okJobTitle (r : Except StructFailure JobData) : Option String :=
  match r with
  | .ok job => job.jobTitle
  | .error _ => none

/-! ## Concrete fixtures (documents and collaborator behaviours used by
witnesses and counterexamples) -/

/-- A cleaned document with no content at all. -/
def emptyDoc : Doc :=
  { title := "", h1 := "", h2s := [], sel := fun _ => none, body := "" }

/-- Behaviour: the fetch times out (axios error without response). -/
def behFetchFail : ItemBehaviour :=
  { fetch := .error (.axios none "timeout of 10000ms exceeded")
  , structuring := .reply "\x7b\x7d" }

/-- Behaviour: fetch succeeds, the structuring call returns HTTP 500. -/
def behStructFail : ItemBehaviour :=
  { fetch := .ok emptyDoc, structuring := .httpError (some 500) "upstream error" }

/-- Behaviour: fetch succeeds and the service replies with a JSON object. -/
def behOk : ItemBehaviour :=
  { fetch := .ok emptyDoc, structuring := .reply "\x7b\"jobTitle\":\"Engineer\"\x7d" }

/-- A reply whose object supplies every field the report builder
dereferences (salary object, benefits array, requirements object with a
skills array). -/
def fullReply : String :=
  "\x7b\"jobTitle\":\"Engineer\",\"salary\":\x7b\"min\":25\x7d,\"benefits\":[],\"requirements\":\x7b\"skills\":[]\x7d\x7d"

/-- Behaviour: fetch succeeds and the service replies with a
shape-complete object. -/
def behOkFull : ItemBehaviour :=
  { fetch := .ok emptyDoc, structuring := .reply fullReply }

/-- A record as structured from a service reply carrying only a job
title. -/
def jobEngineer : JobData :=
  jobFromJson (Json.obj [("jobTitle", .str "Engineer")]) "https://a.example"
    "2024-01-01T00:00:00.000Z"

/-- A record whose `jobTitle` is present but empty. -/
def jobEmptyTitle : JobData :=
  { jobTitle := some ""
  , companyName := none
  , location := none
  , salary := { min := none, max := none, type := none, details := none }
  , workingHours := none
  , holidays := none
  , benefits := []
  , requirements := { experience := none, skills := [], education := none }
  , jobDescription := none
  , applicationMethod := none
  , employmentType := none
  , url := "https://a.example"
  , extractedAt := "2024-01-01T00:00:00.000Z" }

/-- A service reply containing two JSON objects separated by prose. -/
def twoObjectReply : String := "Result: \x7b\"a\":1\x7d and also \x7b\"b\":2\x7d"

/-- A service reply wrapping a single JSON object in prose (no further
braces). -/
def proseReply : String :=
  "Sure! Here is the JSON: \x7b\"jobTitle\":\"Engineer\",\"location\":\"Tokyo\"\x7d Hope this helps."

/-- A 40-character candidate text. -/
def mainText40 : String := ⟨List.replicate 40 'a'⟩

/-- A 120-character candidate text. -/
def articleText120 : String := ⟨List.replicate 120 'b'⟩

/-- Document of the spec's scenario: `main` matches 40 characters of text
and `article` matches 120. -/
def scenarioDoc : Doc :=
  { title := "T"
  , h1 := "H"
  , h2s := []
  , sel := fun q =>
      if q = "main" then some mainText40
      else if q = "article" then some articleText120
      else none
  , body := "body text" }

/-- Document whose only matching candidate selector has empty text. -/
def emptyMatchDoc : Doc :=
  { title := ""
  , h1 := ""
  , h2s := []
  , sel := fun q => if q = "main" then some "" else none
  , body := "BODYTEXT" }

/-! ## Helper lemmas -/

theorem strData_append (s t : String) : (s ++ t).data = s.data ++ t.data := by
  cases s; cases t; rfl

theorem strAppend_assoc (a b c : String) : a ++ b ++ c = a ++ (b ++ c) := by
  cases a with
  | mk la =>
    cases b with
    | mk lb =>
      cases c with
      | mk lc => exact congrArg String.mk (List.append_assoc la lb lc)

theorem strAppend_empty (s : String) : s ++ "" = s := by
  cases s with
  | mk l => exact congrArg String.mk (List.append_nil l)

theorem strLength_mk (l : List Char) : (String.mk l).length = l.length := rfl

theorem strLength_append (s t : String) : (s ++ t).length = s.length + t.length := by
  cases s; cases t; simp [String.length, String.append]

theorem strNeEmpty_iff (s : String) : s ≠ "" ↔ 0 < s.length := by
  cases s with
  | mk l =>
    cases l with
    | nil => simp [String.length]
    | cons c cs =>
      simp only [String.length, List.length_cons]
      constructor
      · intro _; omega
      · intro _ h
        exact List.noConfusion (congrArg String.data h)

theorem jsSubstring_length (s : String) (n : Nat) :
    (jsSubstring s n).length = min n s.length := by
  cases s with
  | mk l =>
    show (String.mk (l.take n)).length = min n (String.mk l).length
    rw [strLength_mk, strLength_mk, List.length_take]

theorem jsSubstring_of_le (s : String) (n : Nat) (h : s.length ≤ n) :
    jsSubstring s n = s := by
  cases s with
  | mk l =>
    simp only [jsSubstring, List.take_of_length_le h]

theorem afterFirst_cons_self (c : Char) (l : List Char) :
    afterFirst c (c :: l) = some (c :: l) := by
  simp [afterFirst]

theorem afterFirst_append (c : Char) (pre l : List Char) (h : c ∉ pre) :
    afterFirst c (pre ++ l) = afterFirst c l := by
  induction pre with
  | nil => rfl
  | cons x xs ih =>
    simp only [List.mem_cons, not_or] at h
    simp only [List.cons_append, afterFirst, if_neg (Ne.symm h.1)]
    exact ih h.2

/-- The greedy regex picks out exactly the span from the first `\x7b` to
the last `\x7d` of the reply. -/
theorem jsonRegion_eq_greedy_span (pre mid post : List Char)
    (hpre : '{' ∉ pre) (hpost : '}' ∉ post) :
    jsonRegion ⟨pre ++ '{' :: (mid ++ '}' :: post)⟩ =
      some ⟨'{' :: (mid ++ ['}'])⟩ := by
  have h1 : afterFirst '{' (pre ++ '{' :: (mid ++ '}' :: post)) =
      some ('{' :: (mid ++ '}' :: post)) := by
    rw [afterFirst_append '{' pre _ hpre, afterFirst_cons_self]
  have hrev : ('{' :: (mid ++ '}' :: post)).reverse =
      post.reverse ++ '}' :: (mid.reverse ++ ['{']) := by
    simp
  have hpost2 : '}' ∉ post.reverse := by
    simpa using hpost
  have h2 : afterFirst '}' (('{' :: (mid ++ '}' :: post)).reverse) =
      some ('}' :: (mid.reverse ++ ['{'])) := by
    rw [hrev, afterFirst_append '}' post.reverse _ hpost2, afterFirst_cons_self]
  have hdata : (String.mk (pre ++ '{' :: (mid ++ '}' :: post))).data =
      pre ++ '{' :: (mid ++ '}' :: post) := rfl
  rw [jsonRegion, hdata, h1, Option.some_bind, h2, Option.map_some']
  simp

theorem structureReplyCore_ok_fields (o : StructOutcome) (u n : String) (job : JobData)
    (h : structureReplyCore o u n = .ok job) : job.url = u ∧ job.extractedAt = n := by
  unfold structureReplyCore at h
  split at h
  · split at h
    · cases h
    · split at h
      · cases h
      · injection h with h2
        rw [← h2]
        exact ⟨rfl, rfl⟩
  · cases h

theorem structureJobDataExcel_fields (o : StructOutcome) (c u n : String) :
    (structureJobDataExcel o c u n).url = u ∧
      (structureJobDataExcel o c u n).extractedAt = n := by
  unfold structureJobDataExcel
  cases h : structureReplyCore o u n with
  | ok job => exact structureReplyCore_ok_fields o u n job h
  | error f => exact ⟨rfl, rfl⟩

theorem processItem_url (url : String) (b : ItemBehaviour) (now : String) :
    (processItem url b now).url = url := by
  unfold processItem
  cases b.fetch with
  | error e => rfl
  | ok doc => exact (structureJobDataExcel_fields b.structuring (extractedContent doc) url now).1

theorem processItem_extractedAt (url : String) (b : ItemBehaviour) (now : String) :
    (processItem url b now).extractedAt = now := by
  unfold processItem
  cases b.fetch with
  | error e => rfl
  | ok doc => exact (structureJobDataExcel_fields b.structuring (extractedContent doc) url now).2

theorem runBatchJobs_map_url (now : String) (items : List (String × ItemBehaviour)) :
    (runBatchJobs now items).map (fun j => j.url) = items.map (fun p => p.1) := by
  induction items with
  | nil => rfl
  | cons p rest ih =>
    cases p with
    | mk url b => simp [runBatchJobs, processItem_url, ih]

theorem runBatchJobs_length (now : String) (items : List (String × ItemBehaviour)) :
    (runBatchJobs now items).length = items.length := by
  induction items with
  | nil => rfl
  | cons p rest ih => cases p; simp [runBatchJobs, ih]

theorem runBatchJobs_extractedAt (now : String) (items : List (String × ItemBehaviour)) :
    ∀ j ∈ runBatchJobs now items, j.extractedAt = now := by
  induction items with
  | nil => intro j hj; cases hj
  | cons p rest ih =>
    cases p with
    | mk url b =>
      intro j hj
      cases hj with
      | head => exact processItem_extractedAt url b now
      | tail _ h => exact ih j h

theorem pairUp_map_fst (us : List String) (beh : Nat → ItemBehaviour) :
    (pairUp us beh).map (fun p => p.1) = us := by
  induction us generalizing beh with
  | nil => rfl
  | cons u rest ih => simp [pairUp, ih]

theorem pairUp_length (us : List String) (beh : Nat → ItemBehaviour) :
    (pairUp us beh).length = us.length := by
  induction us generalizing beh with
  | nil => rfl
  | cons u rest ih => simp [pairUp, ih]

theorem detailRows_length (jobsData : List JobData) :
    (detailRows jobsData).length = jobsData.length := by
  simp [detailRows]

theorem pickStep_length_ge (doc : Doc) (acc selector : String) :
    acc.length ≤ (pickStep doc acc selector).length := by
  unfold pickStep
  split
  · next hc => exact Nat.le_of_lt hc.2
  · exact Nat.le_refl _

theorem foldl_pickStep_mono (doc : Doc) (l : List String) (acc : String) :
    acc.length ≤ (l.foldl (pickStep doc) acc).length := by
  induction l generalizing acc with
  | nil => exact Nat.le_refl _
  | cons s rest ih =>
    exact Nat.le_trans (pickStep_length_ge doc acc s) (ih (pickStep doc acc s))

theorem foldl_pickStep_ge_cand (doc : Doc) (l : List String) (acc : String)
    (s : String) (hs : s ∈ l) :
    (candText doc s).length ≤ (l.foldl (pickStep doc) acc).length := by
  induction l generalizing acc with
  | nil => cases hs
  | cons x rest ih =>
    rw [List.foldl_cons]
    cases hs with
    | head =>
      refine Nat.le_trans ?_ (foldl_pickStep_mono doc rest (pickStep doc acc s))
      unfold pickStep
      split
      · exact Nat.le_refl _
      · next hc =>
        by_cases hempty : candText doc s = ""
        · rw [hempty]; exact Nat.zero_le _
        · have := not_and.mp hc hempty
          omega
    | tail _ hmem => exact ih (pickStep doc acc x) hmem

theorem foldl_pickStep_mem (doc : Doc) (l : List String) (acc : String) :
    l.foldl (pickStep doc) acc = acc ∨
      ∃ s ∈ l, l.foldl (pickStep doc) acc = candText doc s := by
  induction l generalizing acc with
  | nil => exact Or.inl rfl
  | cons x rest ih =>
    cases ih (pickStep doc acc x) with
    | inl h =>
      rw [List.foldl_cons, h]
      unfold pickStep
      split
      · exact Or.inr ⟨x, List.mem_cons_self x rest, rfl⟩
      · exact Or.inl rfl
    | inr h =>
      obtain ⟨s, hmem, heq⟩ := h
      exact Or.inr ⟨s, List.mem_cons_of_mem x hmem, heq⟩

theorem foldl_pickStep_all_empty (doc : Doc) (l : List String) (acc : String)
    (h : ∀ s ∈ l, candText doc s = "") :
    l.foldl (pickStep doc) acc = acc := by
  induction l generalizing acc with
  | nil => rfl
  | cons x rest ih =>
    have hx : pickStep doc acc x = acc := by
      unfold pickStep
      rw [h x (List.mem_cons_self x rest)]
      simp
    rw [List.foldl_cons, hx]
    exact ih acc (fun s hs => h s (List.mem_cons_of_mem x hs))

theorem pickMain_empty_iff (doc : Doc) :
    pickMain doc = "" ↔ ∀ s ∈ contentSelectors, candText doc s = "" := by
  constructor
  · intro h s hs
    have hle := foldl_pickStep_ge_cand doc contentSelectors "" s hs
    unfold pickMain at h
    rw [h] at hle
    have : (candText doc s).length = 0 := Nat.le_zero.mp hle
    by_contra hne
    have := (strNeEmpty_iff (candText doc s)).mp hne
    omega
  · intro h
    exact foldl_pickStep_all_empty doc contentSelectors "" h

theorem bump_sum (k : String) (l : List (String × Nat)) :
    ((bump k l).map Prod.snd).sum = (l.map Prod.snd).sum + 1 := by
  induction l with
  | nil => rfl
  | cons p rest ih =>
    cases p with
    | mk k2 n =>
      unfold bump
      split
      · simp only [List.map_cons, List.sum_cons]
        omega
      · simp only [List.map_cons, List.sum_cons, ih]
        omega

theorem bump_lookupCount_self (k : String) (l : List (String × Nat)) :
    lookupCount k (bump k l) = lookupCount k l + 1 := by
  induction l with
  | nil => simp [bump, lookupCount]
  | cons p rest ih =>
    cases p with
    | mk k2 n =>
      unfold bump
      split
      · next heq => simp [lookupCount, heq]
      · next hne => simp [lookupCount, hne, ih]

theorem bump_lookupCount_other (k k2 : String) (l : List (String × Nat))
    (h : k2 ≠ k) : lookupCount k (bump k2 l) = lookupCount k l := by
  induction l with
  | nil => simp [bump, lookupCount, h]
  | cons p rest ih =>
    cases p with
    | mk k3 n =>
      unfold bump
      split
      · next heq => simp [lookupCount, heq, h]
      · next hne => simp only [lookupCount]; split <;> simp [ih]

theorem groupCount_eq_foldl (field : JobData → Option String) (jobsData : List JobData) :
    groupCount field jobsData = jobsData.foldl (groupStep field) [] := rfl

theorem groupStep_none (field : JobData → Option String) (acc : List (String × Nat))
    (job : JobData) (h : field job = none) : groupStep field acc job = acc := by
  unfold groupStep
  rw [h]

theorem groupStep_some_empty (field : JobData → Option String) (acc : List (String × Nat))
    (job : JobData) (h : field job = some "") : groupStep field acc job = acc := by
  unfold groupStep
  rw [h]
  simp

theorem groupStep_some (field : JobData → Option String) (acc : List (String × Nat))
    (job : JobData) (v : String) (h : field job = some v) (hv : v ≠ "") :
    groupStep field acc job = bump v acc := by
  unfold groupStep
  rw [h]
  exact if_pos hv

theorem truthyStr_none (x : Option String) (h : x = none) : truthyStr x = false := by
  rw [h]; rfl

theorem foldl_groupStep_sum (field : JobData → Option String)
    (jobsData : List JobData) (acc : List (String × Nat)) :
    (((jobsData.foldl (groupStep field) acc).map Prod.snd).sum) =
      ((acc.map Prod.snd).sum) +
        (jobsData.filter (fun j => truthyStr (field j))).length := by
  induction jobsData generalizing acc with
  | nil => simp
  | cons job rest ih =>
    rw [List.foldl_cons, ih]
    cases hf : field job with
    | none =>
      rw [groupStep_none field acc job hf]
      simp [List.filter_cons, truthyStr, hf]
    | some v =>
      by_cases hv : v = ""
      · subst hv
        rw [groupStep_some_empty field acc job hf]
        simp [List.filter_cons, truthyStr, hf]
      · rw [groupStep_some field acc job v hf hv, bump_sum]
        have ht : truthyStr (field job) = true := by
          rw [hf]; simpa [truthyStr] using hv
        simp only [List.filter_cons, ht, if_pos, List.length_cons]
        omega

theorem groupCount_sum (field : JobData → Option String) (jobsData : List JobData) :
    ((groupCount field jobsData).map Prod.snd).sum =
      (jobsData.filter (fun j => truthyStr (field j))).length := by
  rw [groupCount_eq_foldl, foldl_groupStep_sum]
  simp

theorem foldl_groupStep_lookup (field : JobData → Option String) (k : String)
    (hk : k ≠ "") (jobsData : List JobData) (acc : List (String × Nat)) :
    lookupCount k (jobsData.foldl (groupStep field) acc) =
      lookupCount k acc + (jobsData.countP (fun j => field j == some k)) := by
  induction jobsData generalizing acc with
  | nil => simp
  | cons job rest ih =>
    rw [List.foldl_cons, ih]
    cases hf : field job with
    | none =>
      rw [groupStep_none field acc job hf]
      simp [List.countP_cons, hf]
    | some v =>
      by_cases hv : v = ""
      · subst hv
        rw [groupStep_some_empty field acc job hf]
        have hbeq : ((some "" : Option String) == some k) = false := by
          simp [Ne.symm hk]
        simp [List.countP_cons, hf, hbeq]
      · rw [groupStep_some field acc job v hf hv]
        by_cases hvk : v = k
        · subst hvk
          rw [bump_lookupCount_self]
          have hbeq : ((some v : Option String) == some v) = true := by simp
          simp only [List.countP_cons, hf, hbeq, if_pos]
          omega
        · rw [bump_lookupCount_other k v acc hvk]
          have hbeq : ((some v : Option String) == some k) = false := by simp [hvk]
          simp [List.countP_cons, hf, hbeq]

theorem groupCount_lookup (field : JobData → Option String) (k : String)
    (hk : k ≠ "") (jobsData : List JobData) :
    lookupCount k (groupCount field jobsData) =
      jobsData.countP (fun j => field j == some k) := by
  rw [groupCount_eq_foldl, foldl_groupStep_lookup field k hk]
  simp [lookupCount]

theorem runBatchTrace_eq_flatten (items : List (String × ItemBehaviour)) :
    runBatchTrace items = (items.map itemTraceBlock).flatten := by
  induction items with
  | nil => rfl
  | cons p rest ih =>
    cases p with
    | mk url b =>
      cases hf : b.fetch <;> simp [runBatchTrace, itemTraceBlock, hf, ih]

/-! ## Claim theorems -/

/-- C1: for every input URL list (URLs being non-empty strings) and every
behaviour of the fetcher and the structuring service per item — success,
fetch error, or structuring error — the batch loop's output has exactly
one record per input URL, in input order (its URL projection is exactly
the input list), and every record carries a non-empty `url` equal to its
input URL and the populated `extractedAt` timestamp; no URL is skipped,
retried or duplicated. -/
theorem C1_batch_result_invariant (items : List (String × ItemBehaviour)) (now : String)
    (hnow : now ≠ "") (hurl : ∀ p ∈ items, p.1 ≠ "") :
    (runBatchJobs now items).length = items.length ∧
    (runBatchJobs now items).map (fun j => j.url) = items.map (fun p => p.1) ∧
    ∀ j ∈ runBatchJobs now items, j.url ≠ "" ∧ j.extractedAt = now ∧ j.extractedAt ≠ "" := by
  refine ⟨runBatchJobs_length now items, runBatchJobs_map_url now items, ?_⟩
  intro j hj
  have hex := runBatchJobs_extractedAt now items j hj
  refine ⟨?_, hex, hex ▸ hnow⟩
  have hmem : j.url ∈ (runBatchJobs now items).map (fun j => j.url) :=
    List.mem_map_of_mem _ hj
  rw [runBatchJobs_map_url] at hmem
  obtain ⟨p, hp, hpe⟩ := List.mem_map.mp hmem
  rw [← hpe]
  exact hurl p hp

/-- Witness for C1: a two-URL batch in which the first URL structures
successfully and the second fails at the fetch still yields one record
per URL, in order. -/
theorem C1_batch_result_invariant_witness :
    (runBatchJobs "2024-01-01T00:00:00.000Z"
        [("https://a.example", behOk), ("https://b.example", behFetchFail)]).map
      (fun j => j.url) = ["https://a.example", "https://b.example"] :=
  (C1_batch_result_invariant
    [("https://a.example", behOk), ("https://b.example", behFetchFail)]
    "2024-01-01T00:00:00.000Z" (by decide) (by decide)).2.1

/-- C4 (amended): the fixed 1,000 ms inter-item pause runs at the end of
the loop's try block, so it occurs after every item whose fetch succeeded
— including after an item whose structuring failed, and after the final
item — but it is skipped after an item whose fetch threw, because the
catch block bypasses the delay; the trace is exactly the per-item blocks
in input order. -/
theorem C4_interitem_delay_amended (items : List (String × ItemBehaviour)) :
    runBatchTrace items = (items.map itemTraceBlock).flatten ∧
    (∀ url b doc, b.fetch = Except.ok doc →
      itemTraceBlock (url, b) = [Ev.process url, Ev.delay 1000]) ∧
    (∀ url b e, b.fetch = Except.error e →
      itemTraceBlock (url, b) = [Ev.process url]) := by
  refine ⟨runBatchTrace_eq_flatten items, ?_, ?_⟩
  · intro url b doc h
    unfold itemTraceBlock
    rw [h]
  · intro url b e h
    unfold itemTraceBlock
    rw [h]

/-- Witness for C4 (amended): concrete blocks of a fetch-ok and a
fetch-error item. -/
theorem C4_interitem_delay_amended_witness :
    itemTraceBlock ("https://a.example", behStructFail) =
        [Ev.process "https://a.example", Ev.delay 1000] ∧
      itemTraceBlock ("https://b.example", behFetchFail) = [Ev.process "https://b.example"] :=
  ⟨(C4_interitem_delay_amended []).2.1 "https://a.example" behStructFail emptyDoc rfl,
   (C4_interitem_delay_amended []).2.2 "https://b.example" behFetchFail
     (.axios none "timeout of 10000ms exceeded") rfl⟩

/-- C4 counterexample: in a batch whose first URL fails at the fetch, the
second URL is processed immediately after the first — the trace holds two
adjacent `process` events with no delay between them — refuting the claim
that the ≈1 s delay occurs between every pair of consecutive URLs
including after a failure.  (The trailing delay also shows the pause does
run after a structuring-error item.) -/
theorem C4_interitem_delay_counterexample :
    runBatchTrace [("https://a.example", behFetchFail), ("https://b.example", behStructFail)] =
        [Ev.process "https://a.example", Ev.process "https://b.example", Ev.delay 1000] ∧
      adjacentProcessPair
        (runBatchTrace
          [("https://a.example", behFetchFail), ("https://b.example", behStructFail)]) = true :=
  ⟨rfl, rfl⟩

/-- C3 (amended): for every batch request whose `urls` field is a present
non-empty array and whose credential is present and non-empty, per-item
fetch and structuring FAILURES never surface as a batch-level failure
(every failed item yields a renderable degraded record), and the endpoint
returns the 200 spreadsheet response — with exactly one detail row per
input URL, failures embedded in row data — provided every successfully
parsed reply object supplies the fields the report builder dereferences
(a present non-null `salary`, an array-valued `benefits`, and a
`requirements` object with array-valued `skills`); when some successfully
structured record lacks one of those fields, the report builder's
TypeError escapes to the outer catch and the endpoint returns a 500
server error instead, and a present-but-empty credential is rejected
with a 400 client error (the counterexample exhibits both). -/
theorem C3_batch_returns_200 (us : List String) (k : String)
    (beh : Nat → ItemBehaviour) (now : String) (hus : us ≠ []) (hk : k ≠ "") :
    ((pairUp us beh).all (fun p => itemExcelSafe p.2) = true →
      extractToExcelPOST (some us) (some k) beh now =
        .excel (createExcelFile (runBatchJobs now (pairUp us beh))) 200) ∧
    ((createExcelFile (runBatchJobs now (pairUp us beh))).detail).length = us.length ∧
    ((pairUp us beh).all (fun p => itemExcelSafe p.2) = false →
      extractToExcelPOST (some us) (some k) beh now =
        .jsonError excelTypeErrorMessage 500) ∧
    (∀ b : ItemBehaviour, itemParsedJson b = none → itemExcelSafe b = true) := by
  have hlen : ¬ us.length = 0 := fun h => hus (List.length_eq_zero.mp h)
  refine ⟨?_, ?_, ?_, ?_⟩
  · intro hall
    simp only [extractToExcelPOST, if_neg hlen, if_neg hk, if_pos hall]
  · show (detailRows (runBatchJobs now (pairUp us beh))).length = us.length
    rw [detailRows_length, runBatchJobs_length, pairUp_length]
  · intro hall
    simp only [extractToExcelPOST, if_neg hlen, if_neg hk, hall]
    simp
  · intro b h
    unfold itemExcelSafe
    rw [h]

/-- Witness for C3 (amended): a two-URL batch — one fetch failure, one
shape-complete structured reply — gets the 200 spreadsheet response. -/
theorem C3_batch_returns_200_witness :
    extractToExcelPOST (some ["https://a.example", "https://b.example"]) (some "sk-or-key")
        (fun i => if i = 0 then behFetchFail else behOkFull) "2024-01-01T00:00:00.000Z" =
      .excel
        (createExcelFile
          (runBatchJobs "2024-01-01T00:00:00.000Z"
            (pairUp ["https://a.example", "https://b.example"]
              (fun i => if i = 0 then behFetchFail else behOkFull)))) 200 :=
  (C3_batch_returns_200 ["https://a.example", "https://b.example"] "sk-or-key"
    (fun i => if i = 0 then behFetchFail else behOkFull) "2024-01-01T00:00:00.000Z"
    (by decide) (by decide)).1 (by decide)

/-- C3 counterexample: (i) a request with a non-empty `urls` array and a
present but empty-string credential is answered with a 400 client error,
not a 200 spreadsheet; (ii) even with a non-empty credential, a batch
whose only item structures SUCCESSFULLY into an object lacking the
`salary`/`benefits`/`requirements` fields makes `createExcelFile` throw
(`job.salary.min` on an undefined `salary`), and the endpoint answers
500 — in neither case does the endpoint return the claimed 200-equivalent
spreadsheet response. -/
theorem C3_batch_returns_200_counterexample :
    (extractToExcelPOST (some ["https://a.example"]) (some "") (fun _ => behOk)
        "2024-01-01T00:00:00.000Z" =
      .jsonError "OpenRouter API key is required" 400 ∧
    (some "" : Option String).isSome = true) ∧
    extractToExcelPOST (some ["https://a.example"]) (some "sk-or-key") (fun _ => behOk)
        "2024-01-01T00:00:00.000Z" =
      .jsonError excelTypeErrorMessage 500 :=
  ⟨⟨rfl, rfl⟩, rfl⟩

/-- C5 (amended): for every batch result, the statistics sheet's total
record count equals the number of rows in the detail sheet; for each of
the three grouping fields (jobTitle, location, employmentType) the
per-key counts sum to the number of records in which that field is
present and non-empty (the `if (job.field)` truthiness test also
excludes present-but-empty-string values — see the counterexample —
records failing it are excluded from that aggregation only); counts are
exact and grouping keys are compared by exact string equality (each
non-empty key's count is the exact number of records whose field equals
that key). -/
theorem C5_statistics (jobsData : List JobData) :
    (createExcelFile jobsData).statsTotal = ((createExcelFile jobsData).detail).length ∧
    ((((createExcelFile jobsData).statsJobTitle).map Prod.snd).sum =
      (jobsData.filter (fun j => truthyStr j.jobTitle)).length) ∧
    ((((createExcelFile jobsData).statsLocation).map Prod.snd).sum =
      (jobsData.filter (fun j => truthyStr j.location)).length) ∧
    ((((createExcelFile jobsData).statsEmploymentType).map Prod.snd).sum =
      (jobsData.filter (fun j => truthyStr j.employmentType)).length) ∧
    (∀ k, k ≠ "" → lookupCount k ((createExcelFile jobsData).statsJobTitle) =
      jobsData.countP (fun j => j.jobTitle == some k)) ∧
    (∀ k, k ≠ "" → lookupCount k ((createExcelFile jobsData).statsLocation) =
      jobsData.countP (fun j => j.location == some k)) ∧
    (∀ k, k ≠ "" → lookupCount k ((createExcelFile jobsData).statsEmploymentType) =
      jobsData.countP (fun j => j.employmentType == some k)) := by
  refine ⟨?_, groupCount_sum _ jobsData, groupCount_sum _ jobsData,
    groupCount_sum _ jobsData, fun k hk => groupCount_lookup _ k hk jobsData,
    fun k hk => groupCount_lookup _ k hk jobsData,
    fun k hk => groupCount_lookup _ k hk jobsData⟩
  show jobsData.length = (detailRows jobsData).length
  rw [detailRows_length]

/-- Witness for C5 (amended): one record titled Engineer gives that key
the exact count 1. -/
theorem C5_statistics_witness :
    lookupCount "Engineer" ((createExcelFile [jobEngineer]).statsJobTitle) = 1 :=
  ((C5_statistics [jobEngineer]).2.2.2.2.1 "Engineer" (by decide)).trans (by decide)

/-- C5 counterexample: a record whose `jobTitle` is present but equal to
the empty string is dropped from the job-title aggregation — the per-key
counts sum to 0 although one record has the field present — refuting
"the per-key counts sum to the number of records in which that field is
present". -/
theorem C5_statistics_counterexample :
    ((((createExcelFile [jobEmptyTitle]).statsJobTitle).map Prod.snd).sum = 0 ∧
      [jobEmptyTitle].countP (fun j => j.jobTitle.isSome) = 1) ∧
    jobEmptyTitle.jobTitle.isSome = true := by
  decide

/-- C2 (amended): the Structuring Client extracts the GREEDY brace span of
the service's reply — from the reply's first open brace to its last close
brace (the regex `/\x7b[\s\S]*\x7d/` is greedy), not the first balanced
region; it fails with the no-JSON-found error exactly when no such span
exists, fails with the invalid-JSON error exactly when the extracted span
does not parse as JSON, and on success produces a StructuredJob whose
fields come from the parsed object, so a reply consisting of prose with a
single embedded `\x7b"jobTitle":"Engineer", ...\x7d` object and no other
braces yields jobTitle = "Engineer". -/
theorem C2_json_extraction (text url now : String) :
    (∀ pre mid post, '{' ∉ pre → '}' ∉ post →
      jsonRegion ⟨pre ++ '{' :: (mid ++ '}' :: post)⟩ = some ⟨'{' :: (mid ++ ['}'])⟩) ∧
    (structureJobDataPreview (.reply text) url now = .error .noJsonFound ↔
      jsonRegion text = none) ∧
    (∀ region, jsonRegion text = some region →
      (structureJobDataPreview (.reply text) url now = .error (.invalidJson region) ↔
        Json.parse region = none)) ∧
    (∀ region j, jsonRegion text = some region → Json.parse region = some j →
      structureJobDataPreview (.reply text) url now = .ok (jobFromJson j url now) ∧
      (jobFromJson j url now).jobTitle = j.getStr "jobTitle") ∧
    okJobTitle (structureJobDataPreview (.reply proseReply) url now) = some "Engineer" := by
  refine ⟨jsonRegion_eq_greedy_span, ?_, ?_, ?_, rfl⟩
  · cases hr : jsonRegion text with
    | none =>
      simp only [structureJobDataPreview, structureReplyCore, hr]
    | some region =>
      simp only [structureJobDataPreview, structureReplyCore, hr]
      cases hp : Json.parse region with
      | none => simp
      | some j => simp
  · intro region hr
    simp only [structureJobDataPreview, structureReplyCore, hr]
    cases hp : Json.parse region with
    | none => simp
    | some j => simp
  · intro region j hr hp
    refine ⟨?_, rfl⟩
    simp only [structureJobDataPreview, structureReplyCore, hr, hp]

/-- Witness for C2 (amended): the greedy span at a concrete decomposition
with a unique brace pair. -/
theorem C2_json_extraction_witness :
    jsonRegion ⟨['x', ' '] ++ '{' :: (['a'] ++ '}' :: [' ', 'y'])⟩ =
      some ⟨'{' :: (['a'] ++ ['}'])⟩ :=
  (C2_json_extraction "" "" "").1 ['x', ' '] ['a'] [' ', 'y'] (by decide) (by decide)

/-- C2 counterexample: on a reply holding two prose-separated JSON
objects, the first balanced region is the first object and parses — the
claim as stated therefore predicts success — but the code's greedy regex
extracts the span from the first open brace to the LAST close brace,
which does not parse, so the call fails with the invalid-JSON error: the
code does not extract the first balanced region. -/
theorem C2_json_extraction_counterexample :
    firstBalancedRegion twoObjectReply = some "\x7b\"a\":1\x7d" ∧
    (Json.parse "\x7b\"a\":1\x7d").isSome = true ∧
    jsonRegion twoObjectReply = some "\x7b\"a\":1\x7d and also \x7b\"b\":2\x7d" ∧
    jsonRegion twoObjectReply ≠ firstBalancedRegion twoObjectReply ∧
    structureJobDataPreview (.reply twoObjectReply) "https://a.example" "t" =
      .error (.invalidJson "\x7b\"a\":1\x7d and also \x7b\"b\":2\x7d") := by
  refine ⟨rfl, rfl, rfl, ?_, rfl⟩
  decide

/-- C6 (amended): for every cleaned document, the Content Extractor
selects the longest non-empty trimmed candidate text — for any two
present candidates A and B whose trimmed texts satisfy |A| > |B|, the
selected content is not B's text, and the selected content is some
candidate's text of maximal length — and it falls back to the full body
text exactly when EVERY candidate selector's trimmed text is empty; a
selector that matches nodes whose text is empty therefore still triggers
the fallback (the claim's "only if no candidate selector matches" fails
there, see the counterexample).  The 40-character `main` /
120-character `article` scenario selects the article text. -/
theorem C6_longest_candidate (doc : Doc) :
    (∀ sa ta sb tb, sa ∈ contentSelectors → sb ∈ contentSelectors →
      doc.sel sa = some ta → doc.sel sb = some tb →
      (jsTrim tb).length < (jsTrim ta).length →
      mainContent doc ≠ jsTrim tb) ∧
    (pickMain doc = "" ↔ ∀ s ∈ contentSelectors, candText doc s = "") ∧
    (pickMain doc = "" → mainContent doc = jsTrim doc.body) ∧
    (pickMain doc ≠ "" →
      (∃ s ∈ contentSelectors, pickMain doc = candText doc s) ∧
      (∀ s ∈ contentSelectors, (candText doc s).length ≤ (pickMain doc).length) ∧
      mainContent doc = pickMain doc) ∧
    mainContent scenarioDoc = articleText120 := by
  have hfold : pickMain doc = contentSelectors.foldl (pickStep doc) "" := rfl
  refine ⟨?_, pickMain_empty_iff doc, ?_, ?_, by decide⟩
  · intro sa ta sb tb hsa hsb hta htb hlt
    have hta2 : candText doc sa = jsTrim ta := by
      unfold candText
      rw [hta]
      rfl
    have hge := foldl_pickStep_ge_cand doc contentSelectors "" sa hsa
    rw [hta2, ← hfold] at hge
    have hpne : pickMain doc ≠ "" := by
      rw [strNeEmpty_iff]
      omega
    have hmc : mainContent doc = pickMain doc := by
      unfold mainContent
      rw [if_neg hpne]
    rw [hmc]
    intro heq
    rw [heq] at hge
    omega
  · intro h
    unfold mainContent
    rw [if_pos h]
  · intro h
    refine ⟨?_, ?_, ?_⟩
    · cases foldl_pickStep_mem doc contentSelectors "" with
      | inl he => exact absurd (hfold.trans he) h
      | inr hex =>
        obtain ⟨s, hmem, heq⟩ := hex
        exact ⟨s, hmem, hfold.trans heq⟩
    · intro s hs
      rw [hfold]
      exact foldl_pickStep_ge_cand doc contentSelectors "" s hs
    · unfold mainContent
      rw [if_neg h]

/-- Witness for C6 (amended): in the scenario document, the selected
content is not the 40-character `main` text, because the 120-character
`article` text is longer. -/
theorem C6_longest_candidate_witness :
    mainContent scenarioDoc ≠ jsTrim mainText40 :=
  (C6_longest_candidate scenarioDoc).1 "article" articleText120 "main" mainText40
    (by decide) (by decide) rfl rfl (by decide)

/-- C6 counterexample: in a document whose only matching candidate
selector (`main`) matches nodes with empty text, the extractor still
falls back to the body text, refuting "falling back to the full body
text only if no candidate selector matches" (a longest-present-candidate
reading would select the matching candidate's empty text instead). -/
theorem C6_longest_candidate_counterexample :
    (emptyMatchDoc.sel "main").isSome = true ∧
    "main" ∈ contentSelectors ∧
    mainContent emptyMatchDoc = "BODYTEXT" ∧
    mainContent emptyMatchDoc ≠ candText emptyMatchDoc "main" := by
  refine ⟨rfl, by decide, by decide, by decide⟩

/-- C7: for every extracted content string and every structuring failure
— no JSON found, invalid JSON, or transport error — the degraded record's
`jobDescription` begins with the fixed diagnostic marker 【AI構造化エラー】,
followed by the classified error message and an excerpt made of the first
1,000 characters of the raw extracted content, with the `...` truncation
marker appended if and only if the content is longer than 1,000
characters; every other structured field of the degraded record is absent
or empty; and the excel route's `structureJobData` produces exactly this
record on each failure mode. -/
theorem C7_degraded_record (f : StructFailure) (content url now : String) :
    (degradedJob (structuringErrorMessage f) content url now).jobDescription =
      some (aiErrorMarker ++ structuringErrorMessage f ++ rawDataHeader ++
        jsSubstring content 1000 ++ (if 1000 < content.length then "..." else "")) ∧
    (∃ rest, (degradedJob (structuringErrorMessage f) content url now).jobDescription =
      some (aiErrorMarker ++ rest)) ∧
    (content.length ≤ 1000 →
      (degradedJob (structuringErrorMessage f) content url now).jobDescription =
        some (aiErrorMarker ++ structuringErrorMessage f ++ rawDataHeader ++ content)) ∧
    (1000 < content.length →
      (degradedJob (structuringErrorMessage f) content url now).jobDescription =
        some (aiErrorMarker ++ structuringErrorMessage f ++ rawDataHeader ++
          jsSubstring content 1000 ++ "...")) ∧
    ((degradedJob (structuringErrorMessage f) content url now).jobTitle = none ∧
      (degradedJob (structuringErrorMessage f) content url now).companyName = none ∧
      (degradedJob (structuringErrorMessage f) content url now).location = none ∧
      (degradedJob (structuringErrorMessage f) content url now).salary =
        { min := none, max := none, type := none, details := none } ∧
      (degradedJob (structuringErrorMessage f) content url now).workingHours = none ∧
      (degradedJob (structuringErrorMessage f) content url now).holidays = none ∧
      (degradedJob (structuringErrorMessage f) content url now).benefits = [] ∧
      (degradedJob (structuringErrorMessage f) content url now).requirements =
        { experience := none, skills := [], education := none } ∧
      (degradedJob (structuringErrorMessage f) content url now).applicationMethod = none ∧
      (degradedJob (structuringErrorMessage f) content url now).employmentType = none) ∧
    (∀ status msg, structureJobDataExcel (.httpError status msg) content url now =
      degradedJob (structuringErrorMessage (.transport status msg)) content url now) ∧
    (∀ text, jsonRegion text = none →
      structureJobDataExcel (.reply text) content url now =
        degradedJob (structuringErrorMessage .noJsonFound) content url now) ∧
    (∀ text region, jsonRegion text = some region → Json.parse region = none →
      structureJobDataExcel (.reply text) content url now =
        degradedJob (structuringErrorMessage (.invalidJson region)) content url now) := by
  have ha : (degradedJob (structuringErrorMessage f) content url now).jobDescription =
      some (aiErrorMarker ++ structuringErrorMessage f ++ rawDataHeader ++
        jsSubstring content 1000 ++ (if 1000 < content.length then "..." else "")) := rfl
  refine ⟨ha, ?_, ?_, ?_, ⟨rfl, rfl, rfl, rfl, rfl, rfl, rfl, rfl, rfl, rfl⟩,
    fun status msg => rfl, ?_, ?_⟩
  · refine ⟨structuringErrorMessage f ++ rawDataHeader ++ jsSubstring content 1000 ++
      (if 1000 < content.length then "..." else ""), ?_⟩
    rw [ha]
    simp [strAppend_assoc]
  · intro h
    rw [ha, if_neg (Nat.not_lt.mpr h), strAppend_empty, jsSubstring_of_le content 1000 h]
  · intro h
    rw [ha, if_pos h]
  · intro text h
    simp only [structureJobDataExcel, structureReplyCore, h]
  · intro text region h hp
    simp only [structureJobDataExcel, structureReplyCore, h, hp]

/-- Witness for C7: a concrete no-JSON-found failure over a short content
string yields the marker, the classified message and the untruncated
excerpt. -/
theorem C7_degraded_record_witness :
    (degradedJob (structuringErrorMessage .noJsonFound) "raw page content"
        "https://a.example" "2024-01-01T00:00:00.000Z").jobDescription =
      some (aiErrorMarker ++ structuringErrorMessage .noJsonFound ++ rawDataHeader ++
        "raw page content") :=
  (C7_degraded_record .noJsonFound "raw page content" "https://a.example"
    "2024-01-01T00:00:00.000Z").2.2.1 (by decide)

/-- C8 (amended): for every preview request that supplies a non-empty
credential (the handler's `if (apiKey)` tests truthiness) and whose fetch
succeeded, the credential is probed before any structuring call —
the call trace is the probe followed by the structuring call exactly when
the probe classified the credential valid — and structuring is attempted
if and only if the probe's classification is valid; when the probe's
upstream call returns HTTP 402, the probe classifies the credential as
payment-required, and the preview response carries `apiKeyValid = false`
with that reason in its `error` field. -/
theorem C8_preview_probe (u k : String) (doc : Doc) (probe : ProbeOutcome)
    (structuring : StructOutcome) (now : String) (hu : u ≠ "") (hk : k ≠ "") :
    ((previewPOST (some u) (some k) (.ok doc) probe structuring now).2 =
      PEv.probe :: (if (validateApiKey probe).1 then [PEv.structuring] else [])) ∧
    (PEv.structuring ∈ (previewPOST (some u) (some k) (.ok doc) probe structuring now).2 ↔
      (validateApiKey probe).1 = true) ∧
    (∀ msg, probe = .axiosErr (some 402) msg →
      validateApiKey probe = (false, some probePaymentRequiredMsg) ∧
      (previewPOST (some u) (some k) (.ok doc) probe structuring now).1 =
        .ok (extractContentFromUrlPreview doc) u none (some false)
          (some probePaymentRequiredMsg)) := by
  have hpost : previewPOST (some u) (some k) (.ok doc) probe structuring now =
      (if (validateApiKey probe).1 then
        match structureJobDataPreview structuring u now with
        | .ok job =>
            (.ok (extractContentFromUrlPreview doc) u (some job) (some true) none,
              [.probe, .structuring])
        | .error f =>
            (.ok (extractContentFromUrlPreview doc) u none (some true)
              (some (previewStructuringErrorMsg f)), [.probe, .structuring])
      else
        (.ok (extractContentFromUrlPreview doc) u none (some false)
          (some ((validateApiKey probe).2.getD "Invalid API key or insufficient credits")),
          [.probe])) := by
    simp only [previewPOST, if_neg hu, if_neg hk]
  refine ⟨?_, ?_, ?_⟩
  · rw [hpost]
    by_cases hv : (validateApiKey probe).1 = true
    · rw [if_pos hv, if_pos hv]
      cases structureJobDataPreview structuring u now with
      | ok job => rfl
      | error f => rfl
    · rw [if_neg hv, if_neg hv]
  · rw [hpost]
    by_cases hv : (validateApiKey probe).1 = true
    · rw [if_pos hv]
      cases structureJobDataPreview structuring u now with
      | ok job => simp [hv]
      | error f => simp [hv]
    · rw [if_neg hv]
      simp [hv]
  · intro msg hpr
    subst hpr
    refine ⟨rfl, ?_⟩
    rw [hpost]
    rfl

/-- Witness for C8 (amended): a 402 probe outcome on a concrete preview
request yields `apiKeyValid = false` with the payment-required reason and
no structuring attempt. -/
theorem C8_preview_probe_witness :
    ((previewPOST (some "https://a.example") (some "sk-or-key") (.ok emptyDoc)
        (.axiosErr (some 402) "Insufficient credits") (.reply "\x7b\x7d")
        "2024-01-01T00:00:00.000Z").1 =
      .ok (extractContentFromUrlPreview emptyDoc) "https://a.example" none (some false)
        (some probePaymentRequiredMsg)) :=
  ((C8_preview_probe "https://a.example" "sk-or-key" emptyDoc
      (.axiosErr (some 402) "Insufficient credits") (.reply "\x7b\x7d")
      "2024-01-01T00:00:00.000Z" (by decide) (by decide)).2.2
    "Insufficient credits" rfl).2

/-- C8 counterexample: a preview request supplying a present but
empty-string credential performs no probe and no structuring call even
for a probe behaviour that would classify the credential valid — the
handler's `if (apiKey)` skips the probe for a falsy credential — so
"the credential is probed, and structuring is attempted iff the probe
classifies it valid" fails for an empty supplied credential. -/
theorem C8_preview_probe_counterexample :
    ((previewPOST (some "https://a.example") (some "") (.ok emptyDoc) (.ok 200)
        (.reply "\x7b\x7d") "2024-01-01T00:00:00.000Z").2 = []) ∧
    (validateApiKey (.ok 200)).1 = true ∧
    ¬ PEv.probe ∈ (previewPOST (some "https://a.example") (some "") (.ok emptyDoc)
        (.ok 200) (.reply "\x7b\x7d") "2024-01-01T00:00:00.000Z").2 ∧
    ¬ PEv.structuring ∈ (previewPOST (some "https://a.example") (some "") (.ok emptyDoc)
        (.ok 200) (.reply "\x7b\x7d") "2024-01-01T00:00:00.000Z").2 := by
  decide

/-- C9: for every document, the preview RawExtraction satisfies
`contentLength` = length of `content`, and its `subHeadings` sequence is
exactly the first five secondary-heading texts in document order — hence
a prefix of the heading list of length at most 5. -/
theorem C9_raw_extraction_invariant (doc : Doc) :
    (extractContentFromUrlPreview doc).contentLength =
      ((extractContentFromUrlPreview doc).content).length ∧
    (extractContentFromUrlPreview doc).h2Elements.length ≤ 5 ∧
    (extractContentFromUrlPreview doc).h2Elements = (doc.h2s.map jsTrim).take 5 ∧
    (extractContentFromUrlPreview doc).h2Elements <+: doc.h2s.map jsTrim := by
  refine ⟨rfl, ?_, rfl, ?_⟩
  · show ((doc.h2s.map jsTrim).take 5).length ≤ 5
    rw [List.length_take]
    exact min_le_left 5 _
  · exact List.take_prefix 5 _

/-- C10: for every document handled by the standalone extract-content
endpoint, the returned content is the normalized content truncated to its
first 3,000 characters with the `...` marker appended exactly when the
normalized content exceeds 3,000 characters, and otherwise the normalized
content itself; hence the returned content never exceeds 3,003
characters (a cap the spec does not state — its 4,000-character bound
applies to the structuring prompt). -/
theorem C10_content_cap (doc : Doc) :
    extractContentPOST doc =
      ⟨jsTrim doc.title, jsTrim doc.h1, (doc.h2s.map jsTrim).take 5,
       capContent (extractedContent doc)⟩ ∧
    (∀ s : String, capContent s =
      (if 3000 < s.length then jsSubstring s 3000 ++ "..." else s)) ∧
    (capContent (extractedContent doc)).length ≤ 3003 ∧
    (∀ s : String, s.length ≤ 3000 → capContent s = s) ∧
    (∀ s : String, 3000 < s.length →
      capContent s = jsSubstring s 3000 ++ "..." ∧ (capContent s).length = 3003) := by
  have heq : extractContentPOST doc =
      ⟨jsTrim doc.title, jsTrim doc.h1, (doc.h2s.map jsTrim).take 5,
       capContent (extractedContent doc)⟩ := rfl
  have hbound : ∀ s : String, (capContent s).length ≤ 3003 := by
    intro s
    unfold capContent
    by_cases h : 3000 < s.length
    · rw [if_pos h, strLength_append, jsSubstring_length]
      have hm : min 3000 s.length ≤ 3000 := min_le_left _ _
      have hd : ("..." : String).length = 3 := rfl
      omega
    · rw [if_neg h]
      omega
  refine ⟨heq, fun s => rfl, hbound (extractedContent doc), ?_, ?_⟩
  · intro s h
    unfold capContent
    rw [if_neg (Nat.not_lt.mpr h)]
  · intro s h
    have he : capContent s = jsSubstring s 3000 ++ "..." := by
      unfold capContent
      rw [if_pos h]
    refine ⟨he, ?_⟩
    rw [he, strLength_append, jsSubstring_length]
    have hm : min 3000 s.length = 3000 := Nat.min_eq_left (Nat.le_of_lt h)
    have hd : ("..." : String).length = 3 := rfl
    omega

/-- Witness for C10: the cap leaves a short content untouched and caps a
3,001-character content at 3,003 characters. -/
theorem C10_content_cap_witness :
    capContent "abc" = "abc" ∧
    (capContent ⟨List.replicate 3001 'a'⟩).length = 3003 := by
  constructor
  · exact (C10_content_cap emptyDoc).2.2.2.1 "abc" (by decide)
  · refine ((C10_content_cap emptyDoc).2.2.2.2 ⟨List.replicate 3001 'a'⟩ ?_).2
    show 3000 < (String.mk (List.replicate 3001 'a')).length
    rw [strLength_mk, List.length_replicate]
    omega

end Generator
